import Mathlib

/-!
Verification of the Record Transformer in scripts/csv_to_json.py.

The program is a single-pass transform: it reads a CSV with a header row,
turns each row into a dictionary from column name to raw string value,
skips rows with empty datetime or city, parses the two coordinate columns
as floats with a 0.0 fallback, applies default-value substitution, and
accumulates the resulting records in input order.

Embedding choices:
* a CSV row (a Python dict produced by csv.DictReader) is an association
  list from column name to raw value; dictGet is dict indexing (the first
  binding wins, as dict keys are unique);
* Python float values are represented by the rationals, and the fallible
  builtin float(str) is an explicit parameter parseF of type
  String to Option Rat, where none models a ValueError;
* the current date string datetime.now().strftime("%Y-%m-%d") is an
  explicit parameter today;
* the outer try/except that ends in sys.exit(1) is an Except Unit result:
  Except.error () is the fatal non-zero process exit, Except.ok is the
  serialized record list;
* a file that cannot be opened is modelled by passing none as the input:
  open() raising is caught by the same outer handler.
-/

/-- A CSV row as produced by csv.DictReader: a finite map from column
name to raw string value, represented as an association list. -/
abbrev Row := List (String × String)

/-- Dict indexing row[k]: the value of the first binding of k, if any.
A none result models a Python KeyError. -/
def dictGet : Row → String → Option String
  | [], _ => none
  | p :: rest, k => if p.1 = k then some p.2 else dictGet rest k

/-- Membership test, Python's (k in row). -/
def hasKey (row : Row) (k : String) : Bool :=
  (dictGet row k).isSome

/-- The value of a column, with "" standing in when the column is absent
(used only under hypotheses that make the column present). -/
def rowVal (row : Row) (k : String) : String :=
  (dictGet row k).getD ""

/-- The Output Record built for one emitted row (the sighting dict of the
source, lines 59-70). -/
structure Sighting where
  dateTime : String
  city : String
  state : String
  country : String
  shape : String
  duration : String
  summary : String
  posted : String
  latitude : ℚ
  longitude : ℚ
deriving DecidableEq

/-- Longitude column detection, line 52 of the source:
lng_key = 'longitude ' if 'longitude ' in row else 'longitude'. -/
def lngKeyOf (row : Row) : String :=
  if hasKey row "longitude " then "longitude " else "longitude"

/-- The body of the coordinate try block (source lines 49-53).  A none
result models an exception (ValueError from float, or KeyError from
indexing) escaping the block. -/
def coordTry (parseF : String → Option ℚ) (row : Row) : Option (ℚ × ℚ) := do
  let latS ← dictGet row "latitude"
  let lat ← if latS = "" then some 0 else parseF latS
  let lngS ← dictGet row (lngKeyOf row)
  let lng ← if lngS = "" then some 0 else parseF lngS
  some (lat, lng)

/-- Coordinates after the try/except: on ValueError or KeyError the
handler substitutes lat, lng = 0.0, 0.0 (source lines 54-56). -/
def getCoords (parseF : String → Option ℚ) (row : Row) : ℚ × ℚ :=
  (coordTry parseF row).getD (0, 0)

/-- Outcome of the loop body for one row: fatal is an uncaught KeyError
(escaping to the outer handler), skip is the continue of line 46, emit
is the append of line 71. -/
inductive RowResult where
  | fatal : RowResult
  | skip : RowResult
  | emit : Sighting → RowResult
deriving DecidableEq

/-- The loop body for one row (source lines 44-71).  Mirrors Python
evaluation order: row['datetime'] is indexed first and short-circuits the
skip check, so a row with empty datetime never indexes row['city']; the
remaining columns are indexed while building the sighting dict, and any
missing one is an uncaught KeyError, hence fatal. -/
def processRow (parseF : String → Option ℚ) (today : String) (row : Row) : RowResult :=
  match dictGet row "datetime" with
  | none => RowResult.fatal
  | some dt =>
    if dt = "" then RowResult.skip
    else
      match dictGet row "city" with
      | none => RowResult.fatal
      | some ct =>
        if ct = "" then RowResult.skip
        else
          match dictGet row "state", dictGet row "country", dictGet row "shape",
              dictGet row "duration (hours/min)", dictGet row "comments",
              dictGet row "date posted" with
          | some st, some co, some sh, some du, some cm, some dp =>
            RowResult.emit {
              dateTime := dt
              city := ct
              state := st
              country := if co = "" then "Unknown" else co
              shape := if sh = "" then "Unknown" else sh
              duration := if du = "" then "Unknown" else du
              summary := if cm = "" then "" else cm
              posted := if dp = "" then today else dp
              latitude := (getCoords parseF row).1
              longitude := (getCoords parseF row).2 }
          | _, _, _, _, _, _ => RowResult.fatal

/-- The early-exit test of source line 41:
limit is not None and i >= limit, where i is the enumerate index, i.e.
the number of rows scanned so far. -/
def stopAt (limit : Option Nat) (i : Nat) : Bool :=
  match limit with
  | none => false
  | some n => decide (n ≤ i)

/-- The row loop of source lines 40-71, with the sightings accumulator
made explicit (appending to a Python list is modelled by consing and a
final reverse). -/
def convertLoop (parseF : String → Option ℚ) (today : String) (limit : Option Nat) :
    List Row → Nat → List Sighting → Except Unit (List Sighting)
  | [], _, acc => Except.ok acc.reverse
  | row :: rest, i, acc =>
    if stopAt limit i then Except.ok acc.reverse
    else
      match processRow parseF today row with
      | RowResult.fatal => Except.error ()
      | RowResult.skip => convertLoop parseF today limit rest (i + 1) acc
      | RowResult.emit s => convertLoop parseF today limit rest (i + 1) (s :: acc)

/-- The whole transform convert_csv_to_json.  The input is none when the
file cannot be opened (open() raises, caught by the outer handler), and
some rows when it yields the given row dicts.  Except.error () is
sys.exit(1); Except.ok is the record list written as the JSON array. -/
def convert_csv_to_json (parseF : String → Option ℚ) (today : String)
    (limit : Option Nat) (input : Option (List Row)) : Except Unit (List Sighting) :=
  match input with
  | none => Except.error ()
  | some rows => convertLoop parseF today limit rows 0 []

/-- The columns whose values the loop body indexes outside the coordinate
try block; a row missing one of these can be processed only fatally or
by skipping. -/
def requiredCols : List String :=
  ["datetime", "city", "state", "country", "shape", "duration (hours/min)",
   "comments", "date posted", "latitude"]

/-- The row has every required non-longitude column. -/
def hasRequiredBase (row : Row) : Bool :=
  requiredCols.all (fun k => hasKey row k)

/-- The row has every required column, including a longitude variant. -/
def hasRequired (row : Row) : Bool :=
  hasRequiredBase row && (hasKey row "longitude " || hasKey row "longitude")

/-- A valid row: non-empty datetime and city (the emission criterion). -/
def validRow (row : Row) : Bool :=
  (rowVal row "datetime" != "") && (rowVal row "city" != "")

/-- The Output Record the loop builds for a valid row that has all
required columns (the sighting dict, written as a function of the row). -/
def mkSighting (parseF : String → Option ℚ) (today : String) (row : Row) : Sighting :=
  { dateTime := rowVal row "datetime"
    city := rowVal row "city"
    state := rowVal row "state"
    country := if rowVal row "country" = "" then "Unknown" else rowVal row "country"
    shape := if rowVal row "shape" = "" then "Unknown" else rowVal row "shape"
    duration := if rowVal row "duration (hours/min)" = "" then "Unknown"
      else rowVal row "duration (hours/min)"
    summary := if rowVal row "comments" = "" then "" else rowVal row "comments"
    posted := if rowVal row "date posted" = "" then today else rowVal row "date posted"
    latitude := (getCoords parseF row).1
    longitude := (getCoords parseF row).2 }

/-- Accumulator-free form of the loop with no limit, used to state the
functional behaviour: first fatal row aborts, skipped rows vanish, emitted
records keep input order. -/
def runRows (parseF : String → Option ℚ) (today : String) : List Row → Except Unit (List Sighting)
  | [] => Except.ok []
  | row :: rest =>
    match processRow parseF today row with
    | RowResult.fatal => Except.error ()
    | RowResult.skip => runRows parseF today rest
    | RowResult.emit s => Except.map (fun t => s :: t) (runRows parseF today rest)

/-- Renaming the longitude column to the trailing-space variant, leaving
all values unchanged. -/
def renameLng (row : Row) : Row :=
  row.map (fun p => if p.1 = "longitude" then ("longitude ", p.2) else p)

/-! Basic lemmas about row access. -/

lemma dictGet_of_hasKey {row : Row} {k : String} (h : hasKey row k = true) :
    dictGet row k = some (rowVal row k) := by
  unfold hasKey at h
  unfold rowVal
  cases hd : dictGet row k with
  | none => rw [hd] at h; simp at h
  | some v => simp

lemma hasRequiredBase_iff {row : Row} :
    hasRequiredBase row = true ↔
      hasKey row "datetime" = true ∧ hasKey row "city" = true ∧
      hasKey row "state" = true ∧ hasKey row "country" = true ∧
      hasKey row "shape" = true ∧ hasKey row "duration (hours/min)" = true ∧
      hasKey row "comments" = true ∧ hasKey row "date posted" = true ∧
      hasKey row "latitude" = true := by
  simp [hasRequiredBase, requiredCols]

lemma validRow_iff {row : Row} :
    validRow row = true ↔ rowVal row "datetime" ≠ "" ∧ rowVal row "city" ≠ "" := by
  simp [validRow]

/-- On a row that has every required non-coordinate column, the loop body
either emits the canonical record or skips, according to validity. -/
lemma processRow_of_required (parseF : String → Option ℚ) (today : String) (row : Row)
    (h : hasRequiredBase row = true) :
    processRow parseF today row =
      if validRow row then RowResult.emit (mkSighting parseF today row)
      else RowResult.skip := by
  obtain ⟨h1, h2, h3, h4, h5, h6, h7, h8, -⟩ := hasRequiredBase_iff.mp h
  unfold processRow
  rw [dictGet_of_hasKey h1, dictGet_of_hasKey h2, dictGet_of_hasKey h3,
    dictGet_of_hasKey h4, dictGet_of_hasKey h5, dictGet_of_hasKey h6,
    dictGet_of_hasKey h7, dictGet_of_hasKey h8]
  by_cases hdt : rowVal row "datetime" = ""
  · simp [hdt, validRow]
  · by_cases hct : rowVal row "city" = ""
    · simp [hdt, hct, validRow]
    · simp [hdt, hct, validRow, mkSighting]

/-! Loop characterization lemmas. -/

lemma convertLoop_none_eq (parseF : String → Option ℚ) (today : String) :
    ∀ (rows : List Row) (i : Nat) (acc : List Sighting),
      convertLoop parseF today none rows i acc =
        Except.map (fun l => acc.reverse ++ l) (runRows parseF today rows)
  | [], i, acc => by simp [convertLoop, runRows, Except.map]
  | row :: rest, i, acc => by
    rw [convertLoop, runRows]
    have hstop : stopAt none i = false := rfl
    rw [hstop]
    simp only [Bool.false_eq_true, if_false]
    cases hpr : processRow parseF today row with
    | fatal => rfl
    | skip => exact convertLoop_none_eq parseF today rest (i + 1) acc
    | emit s =>
      refine (convertLoop_none_eq parseF today rest (i + 1) (s :: acc)).trans ?_
      cases runRows parseF today rest with
      | error e => rfl
      | ok t => simp [Except.map]

lemma convertLoop_limit_eq (parseF : String → Option ℚ) (today : String) (n : Nat) :
    ∀ (rows : List Row) (i : Nat) (acc : List Sighting),
      convertLoop parseF today (some n) rows i acc =
        convertLoop parseF today none (rows.take (n - i)) i acc
  | [], i, acc => by simp [convertLoop, List.take_nil]
  | row :: rest, i, acc => by
    by_cases hni : n ≤ i
    · have h0 : n - i = 0 := Nat.sub_eq_zero_of_le hni
      have hstop : stopAt (some n) i = true := by simp [stopAt, hni]
      simp [h0, convertLoop, hstop]
    · have hlt : i < n := Nat.lt_of_not_le hni
      have hsucc : n - i = (n - (i + 1)) + 1 := by omega
      have hstop : stopAt (some n) i = false := by simp [stopAt, hni]
      have hstop2 : stopAt none i = false := rfl
      rw [hsucc, List.take_succ_cons]
      simp only [convertLoop, hstop, hstop2, Bool.false_eq_true, if_false]
      cases hpr : processRow parseF today row with
      | fatal => rfl
      | skip => exact convertLoop_limit_eq parseF today n rest (i + 1) acc
      | emit s => exact convertLoop_limit_eq parseF today n rest (i + 1) (s :: acc)

/-- With no limit the transform is exactly the accumulator-free pass. -/
lemma convert_none_eq (parseF : String → Option ℚ) (today : String) (rows : List Row) :
    convert_csv_to_json parseF today none (some rows) = runRows parseF today rows := by
  rw [convert_csv_to_json, convertLoop_none_eq]
  cases runRows parseF today rows with
  | error e => rfl
  | ok t => simp [Except.map]

/-- With limit n the transform is the accumulator-free pass over the first
n rows of the input: the break of line 41 fires on the row index. -/
lemma convert_limit_eq (parseF : String → Option ℚ) (today : String) (n : Nat)
    (rows : List Row) :
    convert_csv_to_json parseF today (some n) (some rows) =
      runRows parseF today (rows.take n) := by
  rw [convert_csv_to_json, convertLoop_limit_eq, Nat.sub_zero, convertLoop_none_eq]
  cases runRows parseF today (rows.take n) with
  | error e => rfl
  | ok t => simp [Except.map]

/-- On rows that all have the required columns, the pass is filter + map. -/
lemma runRows_required (parseF : String → Option ℚ) (today : String) :
    ∀ (rows : List Row), (∀ r ∈ rows, hasRequiredBase r = true) →
      runRows parseF today rows =
        Except.ok ((rows.filter (fun r => validRow r)).map (mkSighting parseF today))
  | [], _ => rfl
  | row :: rest, h => by
    have hrow := h row (List.mem_cons_self row rest)
    have hrest : ∀ r ∈ rest, hasRequiredBase r = true :=
      fun r hr => h r (List.mem_cons_of_mem row hr)
    rw [runRows, processRow_of_required parseF today row hrow]
    by_cases hv : validRow row
    · rw [if_pos hv, runRows_required parseF today rest hrest]
      simp [Except.map, List.filter_cons, hv]
    · rw [if_neg hv, runRows_required parseF today rest hrest]
      simp only [Bool.not_eq_true] at hv
      simp [List.filter_cons, hv]

/-- The pass emits at most one record per row. -/
lemma runRows_length_le (parseF : String → Option ℚ) (today : String) :
    ∀ (rows : List Row) (out : List Sighting),
      runRows parseF today rows = Except.ok out → out.length ≤ rows.length
  | [], out, h => by
    rw [runRows] at h
    cases h
    simp
  | row :: rest, out, h => by
    rw [runRows] at h
    cases hpr : processRow parseF today row with
    | fatal => rw [hpr] at h; cases h
    | skip =>
      rw [hpr] at h
      have := runRows_length_le parseF today rest out h
      simp only [List.length_cons]
      omega
    | emit s =>
      rw [hpr] at h
      cases hrest : runRows parseF today rest with
      | error e => rw [hrest] at h; cases h
      | ok t =>
        rw [hrest] at h
        simp only [Except.map] at h
        cases h
        have := runRows_length_le parseF today rest t hrest
        simp only [List.length_cons]
        omega

/-! Lemmas about renaming the longitude column. -/

lemma dictGet_renameLng_other : ∀ (row : Row) (k : String),
    k ≠ "longitude" → k ≠ "longitude " →
    dictGet (renameLng row) k = dictGet row k
  | [], _, _, _ => rfl
  | p :: rest, k, h1, h2 => by
    by_cases hp : p.1 = "longitude"
    · simp only [renameLng, List.map_cons, if_pos hp, dictGet]
      rw [if_neg (Ne.symm h2), if_neg (by rw [hp]; exact Ne.symm h1)]
      exact dictGet_renameLng_other rest k h1 h2
    · simp only [renameLng, List.map_cons, if_neg hp, dictGet]
      by_cases hk : p.1 = k
      · rw [if_pos hk, if_pos hk]
      · rw [if_neg hk, if_neg hk]
        exact dictGet_renameLng_other rest k h1 h2

lemma dictGet_renameLng_space : ∀ (row : Row), hasKey row "longitude " = false →
    dictGet (renameLng row) "longitude " = dictGet row "longitude"
  | [], _ => rfl
  | p :: rest, h => by
    have hne : ¬(p.1 = "longitude ") := by
      intro hc
      simp [hasKey, dictGet, hc] at h
    have hrest : hasKey rest "longitude " = false := by
      simpa [hasKey, dictGet, hne] using h
    by_cases hp : p.1 = "longitude"
    · simp only [renameLng, List.map_cons, if_pos hp, dictGet]
      simp
    · simp only [renameLng, List.map_cons, if_neg hp, dictGet]
      rw [if_neg hne]
      exact dictGet_renameLng_space rest hrest

lemma dictGet_renameLng_plain : ∀ (row : Row),
    dictGet (renameLng row) "longitude" = none
  | [] => rfl
  | p :: rest => by
    by_cases hp : p.1 = "longitude"
    · simp only [renameLng, List.map_cons, if_pos hp, dictGet]
      rw [if_neg (by decide : ¬("longitude " = "longitude"))]
      exact dictGet_renameLng_plain rest
    · simp only [renameLng, List.map_cons, if_neg hp, dictGet]
      exact dictGet_renameLng_plain rest

lemma dictGet_none_of_hasKey_false {row : Row} {k : String} (h : hasKey row k = false) :
    dictGet row k = none := by
  unfold hasKey at h
  cases hd : dictGet row k with
  | none => rfl
  | some v => rw [hd] at h; simp at h

lemma coordTry_renameLng (parseF : String → Option ℚ) (row : Row)
    (h : hasKey row "longitude " = false) :
    coordTry parseF (renameLng row) = coordTry parseF row := by
  have hlat : dictGet (renameLng row) "latitude" = dictGet row "latitude" :=
    dictGet_renameLng_other row "latitude" (by decide) (by decide)
  have hspace : dictGet (renameLng row) "longitude " = dictGet row "longitude" :=
    dictGet_renameLng_space row h
  have hkey2 : lngKeyOf row = "longitude" := by
    unfold lngKeyOf
    rw [h]
    rfl
  by_cases hl : hasKey row "longitude"
  · have hkey1 : lngKeyOf (renameLng row) = "longitude " := by
      unfold lngKeyOf hasKey
      rw [hspace]
      unfold hasKey at hl
      rw [hl]
      rfl
    simp only [coordTry, hlat, hkey1, hkey2, hspace]
  · have hnone : dictGet row "longitude" = none :=
      dictGet_none_of_hasKey_false (by simpa using hl)
    have hkey1 : lngKeyOf (renameLng row) = "longitude" := by
      unfold lngKeyOf hasKey
      rw [hspace, hnone]
      rfl
    simp only [coordTry, hlat, hkey1, hkey2, dictGet_renameLng_plain, hnone]

/-- Renaming the longitude column does not change what the loop body does
to a row (provided the trailing-space variant was not already present). -/
lemma processRow_renameLng (parseF : String → Option ℚ) (today : String) (row : Row)
    (h : hasKey row "longitude " = false) :
    processRow parseF today (renameLng row) = processRow parseF today row := by
  have e1 := dictGet_renameLng_other row "datetime" (by decide) (by decide)
  have e2 := dictGet_renameLng_other row "city" (by decide) (by decide)
  have e3 := dictGet_renameLng_other row "state" (by decide) (by decide)
  have e4 := dictGet_renameLng_other row "country" (by decide) (by decide)
  have e5 := dictGet_renameLng_other row "shape" (by decide) (by decide)
  have e6 := dictGet_renameLng_other row "duration (hours/min)" (by decide) (by decide)
  have e7 := dictGet_renameLng_other row "comments" (by decide) (by decide)
  have e8 := dictGet_renameLng_other row "date posted" (by decide) (by decide)
  have ec : getCoords parseF (renameLng row) = getCoords parseF row := by
    unfold getCoords
    rw [coordTry_renameLng parseF row h]
  simp only [processRow, e1, e2, e3, e4, e5, e6, e7, e8, ec]

lemma convertLoop_map_congr (parseF : String → Option ℚ) (today : String)
    (limit : Option Nat) (phi : Row → Row) :
    ∀ (rows : List Row) (i : Nat) (acc : List Sighting),
      (∀ r ∈ rows, processRow parseF today (phi r) = processRow parseF today r) →
      convertLoop parseF today limit (rows.map phi) i acc =
        convertLoop parseF today limit rows i acc
  | [], _, _, _ => rfl
  | row :: rest, i, acc, h => by
    have hrow := h row (List.mem_cons_self row rest)
    have hrest : ∀ r ∈ rest, processRow parseF today (phi r) = processRow parseF today r :=
      fun r hr => h r (List.mem_cons_of_mem row hr)
    simp only [List.map_cons, convertLoop, hrow]
    by_cases hs : stopAt limit i
    · rw [if_pos hs, if_pos hs]
    · rw [if_neg hs, if_neg hs]
      cases processRow parseF today row with
      | fatal => rfl
      | skip => exact convertLoop_map_congr parseF today limit phi rest (i + 1) acc hrest
      | emit s => exact convertLoop_map_congr parseF today limit phi rest (i + 1) (s :: acc) hrest

/-! The only use the loop body makes of the current date is the posted
default; with a non-empty date posted value the body is date-independent. -/

lemma processRow_today_congr (parseF : String → Option ℚ) (t1 t2 : String) (row : Row)
    (h : dictGet row "date posted" ≠ some "") :
    processRow parseF t1 row = processRow parseF t2 row := by
  unfold processRow
  cases h1 : dictGet row "datetime" with
  | none => rfl
  | some dt =>
    by_cases hdt : dt = ""
    · simp [hdt]
    · simp only [if_neg hdt]
      cases h2 : dictGet row "city" with
      | none => rfl
      | some ct =>
        by_cases hct : ct = ""
        · simp [hct]
        · simp only [if_neg hct]
          cases h3 : dictGet row "state" <;>
            cases h4 : dictGet row "country" <;>
              cases h5 : dictGet row "shape" <;>
                cases h6 : dictGet row "duration (hours/min)" <;>
                  cases h7 : dictGet row "comments" <;>
                    cases h8 : dictGet row "date posted" <;>
                      simp_all

lemma convertLoop_today_congr (parseF : String → Option ℚ) (t1 t2 : String)
    (limit : Option Nat) :
    ∀ (rows : List Row) (i : Nat) (acc : List Sighting),
      (∀ r ∈ rows, dictGet r "date posted" ≠ some "") →
      convertLoop parseF t1 limit rows i acc = convertLoop parseF t2 limit rows i acc
  | [], _, _, _ => rfl
  | row :: rest, i, acc, h => by
    have hrow := processRow_today_congr parseF t1 t2 row (h row (List.mem_cons_self row rest))
    have hrest : ∀ r ∈ rest, dictGet r "date posted" ≠ some "" :=
      fun r hr => h r (List.mem_cons_of_mem row hr)
    simp only [convertLoop, hrow]
    by_cases hs : stopAt limit i
    · rw [if_pos hs, if_pos hs]
    · rw [if_neg hs, if_neg hs]
      cases processRow parseF t2 row with
      | fatal => rfl
      | skip => exact convertLoop_today_congr parseF t1 t2 limit rest (i + 1) acc hrest
      | emit s => exact convertLoop_today_congr parseF t1 t2 limit rest (i + 1) (s :: acc) hrest

/-! Coordinate lemmas. -/

/-- A non-empty unparseable latitude makes the whole try block fail, so
the handler zeroes both coordinates. -/
lemma getCoords_lat_fail (parseF : String → Option ℚ) (row : Row) (latS : String)
    (hlat : dictGet row "latitude" = some latS) (hne : latS ≠ "")
    (hbad : parseF latS = none) :
    getCoords parseF row = (0, 0) := by
  simp [getCoords, coordTry, hlat, hne, hbad]

/-- When the latitude step succeeds, the emitted longitude is the parse of
the detected longitude column's value, with 0 for empty or unparseable. -/
lemma getCoords_snd (parseF : String → Option ℚ) (row : Row) (latS lngS : String)
    (hlat : dictGet row "latitude" = some latS)
    (hok : latS = "" ∨ (parseF latS).isSome = true)
    (hlng : dictGet row (lngKeyOf row) = some lngS) :
    (getCoords parseF row).2 = if lngS = "" then 0 else (parseF lngS).getD 0 := by
  have hlv : ∃ lv : ℚ, (if latS = "" then some (0 : ℚ) else parseF latS) = some lv := by
    rcases hok with hok | hok
    · exact ⟨0, by simp [hok]⟩
    · obtain ⟨q, hq⟩ := Option.isSome_iff_exists.mp hok
      by_cases he : latS = ""
      · exact ⟨0, by simp [he]⟩
      · exact ⟨q, by simp [he, hq]⟩
  obtain ⟨lv, hlv⟩ := hlv
  by_cases he : latS = ""
  · by_cases hl : lngS = ""
    · simp [getCoords, coordTry, hlat, hlng, he, hl]
    · cases hq : parseF lngS with
      | none => simp [getCoords, coordTry, hlat, hlng, he, hl, hq]
      | some q => simp [getCoords, coordTry, hlat, hlng, he, hl, hq]
  · have hpl : parseF latS = some lv := by simpa [he] using hlv
    by_cases hl : lngS = ""
    · simp [getCoords, coordTry, hlat, hlng, he, hl, hpl]
    · cases hq : parseF lngS with
      | none => simp [getCoords, coordTry, hlat, hlng, he, hl, hq, hpl]
      | some q => simp [getCoords, coordTry, hlat, hlng, he, hl, hq, hpl]

/-- Both longitude variants absent: the KeyError raised while evaluating
row[lng_key] is caught by the handler, zeroing both coordinates. -/
lemma getCoords_no_lng (parseF : String → Option ℚ) (row : Row)
    (h1 : hasKey row "longitude " = false) (h2 : hasKey row "longitude" = false) :
    getCoords parseF row = (0, 0) := by
  have hkey : lngKeyOf row = "longitude" := by
    unfold lngKeyOf
    rw [h1]
    rfl
  have hnone : dictGet row "longitude" = none := dictGet_none_of_hasKey_false h2
  cases hlat : dictGet row "latitude" with
  | none => simp [getCoords, coordTry, hlat]
  | some latS =>
    by_cases he : latS = ""
    · simp [getCoords, coordTry, hlat, he, hkey, hnone]
    · cases hp : parseF latS with
      | none => simp [getCoords, coordTry, hlat, he, hp]
      | some q => simp [getCoords, coordTry, hlat, he, hp, hkey, hnone]

/-! Concrete fixtures used to instantiate the theorems.  parseF0 is a
fragment of the behaviour of Python's float(): it parses the two numeric
literals the fixtures use and raises (returns none) on everything else,
in particular on "abc" and on "". -/

def parseF0 : String → Option ℚ := fun s =>
  if s = "5.0" then some 5
  else if s = "2.5" then some (5 / 2)
  else none

def rowA : Row :=
  [("datetime", "1/1/2020 20:00"), ("city", "dayton"), ("state", "oh"), ("country", "us"),
   ("shape", "circle"), ("duration (hours/min)", "5 minutes"), ("comments", "bright light"),
   ("date posted", "1/2/2020"), ("latitude", "2.5"), ("longitude", "5.0")]

def rowSkip : Row :=
  [("datetime", ""), ("city", "dayton"), ("state", ""), ("country", ""), ("shape", ""),
   ("duration (hours/min)", ""), ("comments", ""), ("date posted", "1/2/2020"),
   ("latitude", ""), ("longitude", "")]

def rowNoLng : Row :=
  [("datetime", "1/1/2020 20:00"), ("city", "dayton"), ("state", "oh"), ("country", "us"),
   ("shape", "circle"), ("duration (hours/min)", "5 minutes"), ("comments", "bright light"),
   ("date posted", "1/2/2020"), ("latitude", "2.5")]

def rowBadLat : Row :=
  [("datetime", "1/1/2020 20:00"), ("city", "dayton"), ("state", "oh"), ("country", "us"),
   ("shape", "circle"), ("duration (hours/min)", "5 minutes"), ("comments", "bright light"),
   ("date posted", "1/2/2020"), ("latitude", "abc"), ("longitude", "5.0")]

def rowDefaults : Row :=
  [("datetime", "1/1/2020 20:00"), ("city", "dayton"), ("state", ""), ("country", ""),
   ("shape", ""), ("duration (hours/min)", ""), ("comments", ""), ("date posted", ""),
   ("latitude", ""), ("longitude", "")]

def rowNoDT : Row := [("city", "dayton")]

deriving instance DecidableEq for Except

/-! The claims. -/

/-- Claim C1: for every input whose rows all contain the required columns,
the transform (with no limit) emits exactly one Output Record for each row
whose datetime and city are both non-empty, emits none for a row where
either is empty, and preserves the relative order of the source rows:
the output is exactly the in-order image of the valid rows. -/
theorem C1_valid_rows_emitted_in_order (parseF : String → Option ℚ) (today : String)
    (rows : List Row) (h : ∀ r ∈ rows, hasRequired r = true) :
    convert_csv_to_json parseF today none (some rows) =
      Except.ok ((rows.filter (fun r => validRow r)).map (mkSighting parseF today)) := by
  rw [convert_none_eq]
  refine runRows_required parseF today rows (fun r hr => ?_)
  have hb := h r hr
  simp only [hasRequired, Bool.and_eq_true] at hb
  exact hb.1

/-- Witness for C1 at a concrete two-row input: the valid row is emitted,
the row with empty datetime is dropped. -/
theorem C1_witness :
    convert_csv_to_json parseF0 "2020-01-01" none (some [rowA, rowSkip]) =
      Except.ok ((([rowA, rowSkip]).filter (fun r => validRow r)).map
        (mkSighting parseF0 "2020-01-01")) :=
  C1_valid_rows_emitted_in_order parseF0 "2020-01-01" [rowA, rowSkip] (by decide)

/-- Counterexample to claim C2: with limit 1 and an input whose first row
is invalid (empty datetime) and whose second row is valid, the loop breaks
after one row is scanned and the output is empty, although
min(1, number of valid rows) = 1.  The break of source line 41 tests the
enumerate index, i.e. rows scanned, not records produced. -/
theorem C2_counterexample :
    convert_csv_to_json parseF0 "2020-01-01" (some 1) (some [rowSkip, rowA]) =
      Except.ok [] ∧
    min 1 (([rowSkip, rowA].filter (fun r => validRow r)).length) = 1 := by
  constructor
  · decide
  · decide

/-- Claim C2 as amended: with limit N the loop stops after N rows have
been scanned (not after N records have been produced), so the output is
exactly the in-order image of the valid rows among the first N rows. -/
theorem C2_amended_limit_counts_scanned_rows (parseF : String → Option ℚ) (today : String)
    (rows : List Row) (n : Nat) (h : ∀ r ∈ rows.take n, hasRequired r = true) :
    convert_csv_to_json parseF today (some n) (some rows) =
      Except.ok (((rows.take n).filter (fun r => validRow r)).map (mkSighting parseF today)) := by
  rw [convert_limit_eq]
  refine runRows_required parseF today (rows.take n) (fun r hr => ?_)
  have hb := h r hr
  simp only [hasRequired, Bool.and_eq_true] at hb
  exact hb.1

/-- Witness for the amended C2 at the counterexample input: with limit 1
the output is the image of the valid rows among the first 1 rows (none). -/
theorem C2_amended_witness :
    convert_csv_to_json parseF0 "2020-01-01" (some 1) (some [rowSkip, rowA]) =
      Except.ok ((([rowSkip, rowA].take 1).filter (fun r => validRow r)).map
        (mkSighting parseF0 "2020-01-01")) :=
  C2_amended_limit_counts_scanned_rows parseF0 "2020-01-01" [rowSkip, rowA] 1 (by decide)

/-- Counterexample to claim C3: on an input whose header carries neither
longitude variant, the transform does not fail: the KeyError raised by
row[lng_key] is caught by the per-row handler of source line 54, and the
row is emitted with the fallback coordinates, both fields 0.0. -/
theorem C3_counterexample :
    hasKey rowNoLng "longitude" = false ∧ hasKey rowNoLng "longitude " = false ∧
    convert_csv_to_json parseF0 "2020-01-01" none (some [rowNoLng]) =
      Except.ok [mkSighting parseF0 "2020-01-01" rowNoLng] ∧
    (mkSighting parseF0 "2020-01-01" rowNoLng).longitude = 0 ∧
    (mkSighting parseF0 "2020-01-01" rowNoLng).latitude = 0 := by
  refine ⟨by decide, by decide, by decide, by decide, by decide⟩

/-- Claim C3 as amended: when neither longitude variant is present, the
transform does not fail fatally; every valid row that has the other
required columns is emitted, with both coordinates defaulted to 0.0. -/
theorem C3_amended_missing_longitude_nonfatal (parseF : String → Option ℚ) (today : String)
    (r : Row) (hb : hasRequiredBase r = true)
    (h1 : hasKey r "longitude " = false) (h2 : hasKey r "longitude" = false)
    (hv : validRow r = true) :
    convert_csv_to_json parseF today none (some [r]) =
      Except.ok [mkSighting parseF today r] ∧
    (mkSighting parseF today r).latitude = 0 ∧
    (mkSighting parseF today r).longitude = 0 := by
  have hall : ∀ x ∈ [r], hasRequiredBase x = true := by
    intro x hx
    rw [List.mem_singleton] at hx
    rw [hx]
    exact hb
  have hco := getCoords_no_lng parseF r h1 h2
  refine ⟨?_, ?_, ?_⟩
  · rw [convert_none_eq, runRows_required parseF today [r] hall]
    simp [List.filter_cons, hv]
  · show (getCoords parseF r).1 = 0
    rw [hco]
  · show (getCoords parseF r).2 = 0
    rw [hco]

/-- Witness for the amended C3 at the concrete longitude-free row. -/
theorem C3_amended_witness :
    convert_csv_to_json parseF0 "2020-01-01" none (some [rowNoLng]) =
      Except.ok [mkSighting parseF0 "2020-01-01" rowNoLng] ∧
    (mkSighting parseF0 "2020-01-01" rowNoLng).latitude = 0 ∧
    (mkSighting parseF0 "2020-01-01" rowNoLng).longitude = 0 :=
  C3_amended_missing_longitude_nonfatal parseF0 "2020-01-01" rowNoLng
    (by decide) (by decide) (by decide) (by decide)

/-- Counterexample to claim C4: rowBadLat has an unparseable latitude
("abc") and a parseable, non-empty longitude ("5.0", parsed as 5).  The
row is emitted, but its longitude field is 0, not the parsed value: the
except clause of source line 54 zeroes both coordinates as soon as the
latitude parse fails, so longitude can be 0.0 even though its own value
is neither empty nor unparseable. -/
theorem C4_counterexample :
    convert_csv_to_json parseF0 "2020-01-01" none (some [rowBadLat]) =
      Except.ok [mkSighting parseF0 "2020-01-01" rowBadLat] ∧
    dictGet rowBadLat (lngKeyOf rowBadLat) = some "5.0" ∧
    parseF0 "5.0" = some 5 ∧
    (mkSighting parseF0 "2020-01-01" rowBadLat).longitude = 0 ∧ (5 : ℚ) ≠ 0 := by
  refine ⟨by decide, by decide, by decide, by decide, by decide⟩

/-- Claim C4 as amended: for an emitted row whose latitude value is empty
or parseable, the longitude field equals the parsed float of the detected
longitude column's value and is 0.0 exactly when that value is empty or
unparseable; when the latitude value is non-empty and unparseable, both
coordinates fall back to 0.0 regardless of the longitude value. -/
theorem C4_amended_longitude_when_latitude_ok (parseF : String → Option ℚ) (today : String)
    (r : Row) (latS lngS : String)
    (hb : hasRequiredBase r = true) (hv : validRow r = true)
    (hlat : dictGet r "latitude" = some latS)
    (hok : latS = "" ∨ (parseF latS).isSome = true)
    (hlng : dictGet r (lngKeyOf r) = some lngS) :
    processRow parseF today r = RowResult.emit (mkSighting parseF today r) ∧
    (mkSighting parseF today r).longitude = if lngS = "" then 0 else (parseF lngS).getD 0 := by
  constructor
  · rw [processRow_of_required parseF today r hb, if_pos hv]
  · show (getCoords parseF r).2 = _
    exact getCoords_snd parseF r latS lngS hlat hok hlng

/-- Witness for the amended C4 at rowA: latitude "2.5" parses, so the
longitude field is the parse of "5.0". -/
theorem C4_amended_witness :
    processRow parseF0 "2020-01-01" rowA = RowResult.emit (mkSighting parseF0 "2020-01-01" rowA) ∧
    (mkSighting parseF0 "2020-01-01" rowA).longitude =
      if "5.0" = "" then 0 else (parseF0 "5.0").getD 0 :=
  C4_amended_longitude_when_latitude_ok parseF0 "2020-01-01" rowA "2.5" "5.0"
    (by decide) (by decide) (by decide) (Or.inr (by decide)) (by decide)

/-- Claim C5: for every emitted row the output fields follow the
default-substitution table: country, shape and duration fall back to
"Unknown" when empty, summary is the comments value (or the empty string
when empty, which is the same string), posted falls back to the current
date string when date posted is empty, and state is copied verbatim. -/
theorem C5_default_substitution (parseF : String → Option ℚ) (today : String) (r : Row)
    (hb : hasRequiredBase r = true) (hv : validRow r = true) :
    ∃ s, processRow parseF today r = RowResult.emit s ∧
      s.country = (if rowVal r "country" = "" then "Unknown" else rowVal r "country") ∧
      s.shape = (if rowVal r "shape" = "" then "Unknown" else rowVal r "shape") ∧
      s.duration = (if rowVal r "duration (hours/min)" = "" then "Unknown"
        else rowVal r "duration (hours/min)") ∧
      s.summary = rowVal r "comments" ∧
      s.posted = (if rowVal r "date posted" = "" then today else rowVal r "date posted") ∧
      s.state = rowVal r "state" := by
  refine ⟨mkSighting parseF today r, ?_, rfl, rfl, rfl, ?_, rfl, rfl⟩
  · rw [processRow_of_required parseF today r hb, if_pos hv]
  · show (if rowVal r "comments" = "" then "" else rowVal r "comments") = rowVal r "comments"
    by_cases hc : rowVal r "comments" = ""
    · rw [if_pos hc, hc]
    · rw [if_neg hc]

/-- Witness for C5 at rowDefaults, whose country, shape, duration,
comments, date posted and state values are all empty. -/
theorem C5_witness :
    ∃ s, processRow parseF0 "2020-01-01" rowDefaults = RowResult.emit s ∧
      s.country = (if rowVal rowDefaults "country" = "" then "Unknown"
        else rowVal rowDefaults "country") ∧
      s.shape = (if rowVal rowDefaults "shape" = "" then "Unknown"
        else rowVal rowDefaults "shape") ∧
      s.duration = (if rowVal rowDefaults "duration (hours/min)" = "" then "Unknown"
        else rowVal rowDefaults "duration (hours/min)") ∧
      s.summary = rowVal rowDefaults "comments" ∧
      s.posted = (if rowVal rowDefaults "date posted" = "" then "2020-01-01"
        else rowVal rowDefaults "date posted") ∧
      s.state = rowVal rowDefaults "state" :=
  C5_default_substitution parseF0 "2020-01-01" rowDefaults (by decide) (by decide)

/-- Claim C6: a row with non-empty datetime and city whose latitude value
is non-empty and unparseable is still emitted, with latitude 0.0: a
coordinate parse failure never drops a row. -/
theorem C6_unparseable_latitude_row_kept (parseF : String → Option ℚ) (today : String)
    (r : Row) (latS : String)
    (hb : hasRequiredBase r = true) (hv : validRow r = true)
    (hlat : dictGet r "latitude" = some latS) (hne : latS ≠ "")
    (hbad : parseF latS = none) :
    ∃ s, convert_csv_to_json parseF today none (some [r]) = Except.ok [s] ∧
      s.latitude = 0 := by
  have hall : ∀ x ∈ [r], hasRequiredBase x = true := by
    intro x hx
    rw [List.mem_singleton] at hx
    rw [hx]
    exact hb
  refine ⟨mkSighting parseF today r, ?_, ?_⟩
  · rw [convert_none_eq, runRows_required parseF today [r] hall]
    simp [List.filter_cons, hv]
  · show (getCoords parseF r).1 = 0
    rw [getCoords_lat_fail parseF r latS hlat hne hbad]

/-- Witness for C6 at rowBadLat, whose latitude value "abc" does not
parse. -/
theorem C6_witness :
    ∃ s, convert_csv_to_json parseF0 "2020-01-01" none (some [rowBadLat]) = Except.ok [s] ∧
      s.latitude = 0 :=
  C6_unparseable_latitude_row_kept parseF0 "2020-01-01" rowBadLat "abc"
    (by decide) (by decide) (by decide) (by decide) (by decide)

/-- Claim C7: renaming the longitude column to the trailing-space variant
"longitude " while keeping all values yields the same transform output on
every input (for any limit), because line 52 of the source detects
whichever variant is present. -/
theorem C7_trailing_space_rename_invariant (parseF : String → Option ℚ) (today : String)
    (limit : Option Nat) (rows : List Row)
    (h : ∀ r ∈ rows, hasKey r "longitude " = false) :
    convert_csv_to_json parseF today limit (some (rows.map renameLng)) =
      convert_csv_to_json parseF today limit (some rows) := by
  unfold convert_csv_to_json
  exact convertLoop_map_congr parseF today limit renameLng rows 0 []
    (fun r hr => processRow_renameLng parseF today r (h r hr))

/-- Witness for C7 at the concrete one-row input rowA. -/
theorem C7_witness :
    convert_csv_to_json parseF0 "2020-01-01" none (some ([rowA].map renameLng)) =
      convert_csv_to_json parseF0 "2020-01-01" none (some [rowA]) :=
  C7_trailing_space_rename_invariant parseF0 "2020-01-01" none [rowA] (by decide)

/-- Claim C8: with no limit the transform is a deterministic function of
its input whenever no row has an empty date posted value: the only
run-dependent quantity, the current date used as the posted default, is
then never consulted, so two runs (modelled by two arbitrary current-date
strings) produce identical record sequences. -/
theorem C8_deterministic_when_posted_nonempty (parseF : String → Option ℚ)
    (t1 t2 : String) (rows : List Row)
    (h : ∀ r ∈ rows, dictGet r "date posted" ≠ some "") :
    convert_csv_to_json parseF t1 none (some rows) =
      convert_csv_to_json parseF t2 none (some rows) := by
  unfold convert_csv_to_json
  exact convertLoop_today_congr parseF t1 t2 none rows 0 [] h

/-- Witness for C8: two runs on the same concrete input with different
current dates coincide. -/
theorem C8_witness :
    convert_csv_to_json parseF0 "2020-01-01" none (some [rowA, rowSkip]) =
      convert_csv_to_json parseF0 "2021-12-31" none (some [rowA, rowSkip]) :=
  C8_deterministic_when_posted_nonempty parseF0 "2020-01-01" "2021-12-31"
    [rowA, rowSkip] (by decide)

/-- Claim C9: an unopenable input file, or a first row whose extraction
hits a missing required column (an uncaught KeyError), makes the whole
operation fail fatally: the result is the non-zero-exit error, never a
partial record list.  The limit hypothesis only rules out limit = 0, in
which case the loop breaks before touching any row. -/
theorem C9_fatal_errors_abort (parseF : String → Option ℚ) (today : String)
    (limit : Option Nat) (r : Row) (rest : List Row)
    (hfat : processRow parseF today r = RowResult.fatal)
    (hlim : ∀ n, limit = some n → 0 < n) :
    convert_csv_to_json parseF today limit none = Except.error () ∧
    convert_csv_to_json parseF today limit (some (r :: rest)) = Except.error () := by
  constructor
  · rfl
  · have hstop : stopAt limit 0 = false := by
      cases limit with
      | none => rfl
      | some n =>
        have hn := hlim n rfl
        simp only [stopAt, decide_eq_false_iff_not]
        omega
    unfold convert_csv_to_json
    simp only [convertLoop, hstop, Bool.false_eq_true, if_false, hfat]

/-- Witness for C9: a row dict with no datetime key is processed fatally
and aborts the run; an unopenable input aborts as well. -/
theorem C9_witness :
    convert_csv_to_json parseF0 "2020-01-01" none none = Except.error () ∧
    convert_csv_to_json parseF0 "2020-01-01" none (some [rowNoDT, rowA]) =
      Except.error () :=
  C9_fatal_errors_abort parseF0 "2020-01-01" none rowNoDT [rowA] (by decide)
    (fun n h => Option.noConfusion h)

/-- Claim C10: with limit N the number of emitted records is at most N
and at most the number of input rows: the loop appends at most one record
per scanned row and scans no row at index N or beyond. -/
theorem C10_limit_bounds_output (parseF : String → Option ℚ) (today : String)
    (rows : List Row) (n : Nat) :
    ((convert_csv_to_json parseF today (some n) (some rows)).toOption.getD []).length ≤
      min n rows.length := by
  rw [convert_limit_eq]
  cases h : runRows parseF today (rows.take n) with
  | error e => simp [Except.toOption]
  | ok out =>
    have h1 := runRows_length_le parseF today (rows.take n) out h
    rw [List.length_take] at h1
    simpa [Except.toOption] using h1
